import Mathlib

/-!
Shallow embedding of `src/dq.py` (`DataQualityChecker`): a single-metric
data-quality check that queries several relational sources, reduces the
collected row-sets to a scalar via a pluggable "action" function, optionally
pushes the scalar to a Prometheus gateway, and evaluates a pluggable
"comparator" function on it.

Python dictionaries are modelled as association lists (insertion order
preserved, first-match lookup); `dict | dict` union is `dictUnion`;
`str.format(**attrs)` templating is `render` over a list of literal/field
segments; `importlib.import_module(...).run` plugin dispatch is lookup of the
formatted module path in an abstract module registry carried by `Env`.
Database access (`fetchall`) and the push outcome are oracles in `Env`;
`check` returns the trace of externally visible events next to its result so
that abort/ordering/no-push properties can be stated.
-/

/-- A Python scalar value as it appears in attribute dicts and metrics:
either a string (YAML attribute values) or an integer (metric values). -/
inductive Value where
  | str (s : String)
  | int (n : Int)
deriving DecidableEq

/-- Python `str(v)`, as used by `str.format` substitution. -/
def valueStr : Value → String
  | Value.str s => s
  | Value.int n => toString n

/-- A Python dict with string keys, as an insertion-ordered association list. -/
abbrev Dict (V : Type) := List (String × V)

/-- Python `d[k]` / `k in d`: lookup by key, first match. -/
def dictLookup {V : Type} : Dict V → String → Option V
  | [], _ => none
  | (k1, v) :: rest, k => if k1 = k then some v else dictLookup rest k

/-- Python `k in d`. -/
def dictHasKey {V : Type} (d : Dict V) (k : String) : Bool :=
  (dictLookup d k).isSome

/-- Python `a | b` on dicts: keys of `a` keep their position but take the
value from `b` when `b` also binds them; keys only in `b` follow, in the
order of `b`. -/
def dictUnion {V : Type} (a b : Dict V) : Dict V :=
  a.map (fun p => match dictLookup b p.1 with
    | some v => (p.1, v)
    | none => p) ++
  b.filter (fun p => !dictHasKey a p.1)

/-- Lookup by an arbitrary `Value` key (Python dicts keyed by the
`connection` attribute value). -/
def vdictLookup {V : Type} : List (Value × V) → Value → Option V
  | [], _ => none
  | (k1, v) :: rest, k => if k1 = k then some v else vdictLookup rest k

/-- Errors surfaced by the checker: Python `KeyError` (dict lookup or
`str.format` with a missing placeholder), `ModuleNotFoundError` from
`importlib.import_module`, a database error from `psycopg2`, and a push
error from `push_to_gateway`. -/
inductive DQError where
  | keyError (k : String)
  | importError (modulePath : String)
  | dbError (msg : String)
  | pushError (msg : String)
deriving DecidableEq

/-- One segment of a query template: literal text or a named placeholder,
the parsed form of the `metric.sql` file fed to `str.format`. -/
inductive TemplateItem where
  | lit (s : String)
  | field (name : String)
deriving DecidableEq

/-- A query template is a sequence of segments. -/
abbrev Template := List TemplateItem

/-- The placeholder names referenced by a template. -/
def placeholders : Template → List String
  | [] => []
  | TemplateItem.lit _ :: rest => placeholders rest
  | TemplateItem.field n :: rest => n :: placeholders rest

/-- Python `template.format(**attrs)`: substitute each placeholder with the
string form of its attribute value; a missing placeholder raises `KeyError`
(modelled as `DQError.keyError`). -/
def render (t : Template) (attrs : Dict Value) : Except DQError String :=
  match t with
  | [] => Except.ok ""
  | TemplateItem.lit s :: rest =>
    match render rest attrs with
    | Except.ok r => Except.ok (s ++ r)
    | Except.error e => Except.error e
  | TemplateItem.field n :: rest =>
    match dictLookup attrs n with
    | none => Except.error (DQError.keyError n)
    | some v =>
      match render rest attrs with
      | Except.ok r => Except.ok (valueStr v ++ r)
      | Except.error e => Except.error e

/-- Total substitution map: what rendering produces when every placeholder
is present (absent placeholders contribute nothing; only used to state what
`render` returns on success). -/
def renderForced (t : Template) (attrs : Dict Value) : String :=
  match t with
  | [] => ""
  | TemplateItem.lit s :: rest => s ++ renderForced rest attrs
  | TemplateItem.field n :: rest =>
    (match dictLookup attrs n with
      | some v => valueStr v
      | none => "") ++ renderForced rest attrs

/-- The first placeholder (in template order) absent from the attribute
mapping, if any: the one whose `KeyError` `str.format` raises. -/
def firstMissing (attrs : Dict Value) : Template → Option String
  | [] => none
  | TemplateItem.lit _ :: rest => firstMissing attrs rest
  | TemplateItem.field n :: rest =>
    if dictHasKey attrs n then firstMissing attrs rest else some n

/-- ASCII lowercasing of one character, as Python `str.lower` acts on the
ASCII range. -/
def lowerChar (c : Char) : Char :=
  if c.toNat ≥ 65 ∧ c.toNat ≤ 90 then Char.ofNat (c.toNat + 32) else c

/-- Python `s.lower()` (ASCII fragment). -/
def strLower (s : String) : String := String.mk (s.data.map lowerChar)

/-- One entry of `metrics_description.yml`: the static metric-definition
table maps a metric name to an action identifier, a comparator identifier
and a documentation string. -/
structure MetricDescription where
  action : String
  comparator : String
  prometheus_documentation : String
deriving DecidableEq

/-- The constructor arguments of `DataQualityChecker.__init__`. -/
structure CheckerConfig where
  metric_name : String
  /-- the `prometheus_metric_prefix` argument -/
  metricJobArg : String
  sources : List (String × Dict Value)
  attributes : Dict Value
  connections : List (Value × Dict Value)
  prometheus_gateway : Option String
deriving DecidableEq

/-- The constructed checker object: the fields `__init__` stores on `self`. -/
structure DataQualityChecker where
  metric_name : String
  /-- `self.prometheus_metric_prefix` (already lowercased) -/
  metricJob : String
  prometheus_metric_name : String
  sources : List (String × Dict Value)
  attributes : Dict Value
  connections : List (Value × Dict Value)
  prometheus_gateway : Option String
  action : String
  comparator : String
  prometheus_documentation : String
deriving DecidableEq

/-- `DataQualityChecker.__init__`: lowercase the prefix and the metric name,
then resolve the metric name against the static metric-definition table
(`metrics_description.yml`, passed in abstractly); an absent name raises
`KeyError`. -/
def DataQualityChecker.init (table : Dict MetricDescription)
    (cfg : CheckerConfig) : Except DQError DataQualityChecker :=
  match dictLookup table cfg.metric_name with
  | none => Except.error (DQError.keyError cfg.metric_name)
  | some md => Except.ok
      ⟨cfg.metric_name, strLower cfg.metricJobArg, strLower cfg.metric_name,
        cfg.sources, cfg.attributes, cfg.connections, cfg.prometheus_gateway,
        md.action, md.comparator, md.prometheus_documentation⟩

/-- `action_function_template.format(...)`: the module path
`"\x7broot_folder\x7d.actions.\x7baction_name\x7d.action"`. -/
def actionPath (rootFolder actionName : String) : String :=
  rootFolder ++ ".actions." ++ actionName ++ ".action"

/-- `comparator_function_template.format(...)`: the module path
`"\x7broot_folder\x7d.comparators.\x7bcomparator\x7d.comparator"`. -/
def comparatorPath (rootFolder comparator : String) : String :=
  rootFolder ++ ".comparators." ++ comparator ++ ".comparator"

/-- A query result: the list of rows returned by `fetchall`, each row a
tuple of column values. -/
abbrev Rows := List (List Value)

/-- The externally visible effects of one `check()` run: executing a query
against a source, running the action plugin, pushing the metric to the
gateway, running the comparator plugin (with the keyword-argument dict it
receives). -/
inductive Event where
  | query (source : String) (q : String)
  | runAction (name : String) (input : List Rows)
  | push (gateway : String) (job : String) (gauge : String) (value : Value)
  | runComparator (name : String) (kwargs : Dict Value)
deriving DecidableEq

/-- Is this a database-query event? -/
def isQueryB : Event → Bool
  | Event.query _ _ => true
  | _ => false

/-- Is this an action-plugin invocation? -/
def isRunActionB : Event → Bool
  | Event.runAction _ _ => true
  | _ => false

/-- Is this a gateway push? -/
def isPushB : Event → Bool
  | Event.push _ _ _ _ => true
  | _ => false

/-- Is this a comparator-plugin invocation? -/
def isRunComparatorB : Event → Bool
  | Event.runComparator _ _ => true
  | _ => false

/-- The job label of a push event (`""` otherwise). -/
def pushJob : Event → String
  | Event.push _ j _ _ => j
  | _ => ""

/-- The gauge name of a push event (`""` otherwise). -/
def pushGauge : Event → String
  | Event.push _ _ g _ => g
  | _ => ""

/-- The environment `check()` runs in: the parsed query template of this
metric (`metrics/<name>/metric.sql`), the package root folder name, the
the importable action and comparator modules (each exposing `run`), the
database (`fetchall`) as an oracle from connection parameters and query
text, and the outcome `push_to_gateway` would have. -/
structure Env where
  queryTemplate : Template
  rootFolder : String
  actionModules : String → Option (List Rows → Value)
  comparatorModules : String → Option (Dict Value → Value)
  fetchall : Dict Value → String → Except DQError Rows
  pushResult : Except DQError Unit

/-- The attributes used to render the query of one source:
`self.attributes | source_params` (source-specific keys win). -/
def sourceAttrs (c : DataQualityChecker) (sourceParams : Dict Value) :
    Dict Value :=
  dictUnion c.attributes sourceParams

/-- One iteration of the source loop in `check()`: merge attributes, render
the query template, resolve the connection, execute the query. Returns the
events that occurred and the rows or the first error. -/
def querySource (env : Env) (c : DataQualityChecker)
    (entry : String × Dict Value) : List Event × Except DQError Rows :=
  let sourceParams := entry.2
  let attrs := sourceAttrs c sourceParams
  match render env.queryTemplate attrs with
  | Except.error e => ([], Except.error e)
  | Except.ok query =>
    match dictLookup sourceParams "connection" with
    | none => ([], Except.error (DQError.keyError "connection"))
    | some connName =>
      match vdictLookup c.connections connName with
      | none => ([], Except.error (DQError.keyError (valueStr connName)))
      | some connParams =>
        match env.fetchall connParams query with
        | Except.error e => ([Event.query entry.1 query], Except.error e)
        | Except.ok rows => ([Event.query entry.1 query], Except.ok rows)

/-- The source loop of `check()`: iterate the sources in configured
(insertion) order, collecting the row-set of each source; the first failure
aborts the loop. -/
def querySources (env : Env) (c : DataQualityChecker) :
    List (String × Dict Value) → List Event × Except DQError (List Rows)
  | [] => ([], Except.ok [])
  | entry :: rest =>
    match querySource env c entry with
    | (evs, Except.error e) => (evs, Except.error e)
    | (evs, Except.ok rows) =>
      match querySources env c rest with
      | (evs2, Except.error e) => (evs ++ evs2, Except.error e)
      | (evs2, Except.ok rest2) => (evs ++ evs2, Except.ok (rows :: rest2))

/-- `DataQualityChecker.check()`: query every source in order, dispatch the
action plugin on the ordered collection of row-sets, push the metric when a
gateway address is truthy, then dispatch the comparator plugin with
`self.attributes | ("metric" -> metric_value)` as keyword arguments.
Returns the event trace next to the comparison result or first error. -/
def DataQualityChecker.check (env : Env) (c : DataQualityChecker) :
    List Event × Except DQError Value :=
  match querySources env c c.sources with
  | (qEvs, Except.error e) => (qEvs, Except.error e)
  | (qEvs, Except.ok valuesToCompare) =>
    match env.actionModules (actionPath env.rootFolder c.action) with
    | none =>
      (qEvs, Except.error (DQError.importError
        (actionPath env.rootFolder c.action)))
    | some runAct =>
      let metricValue := runAct valuesToCompare
      let evs1 := qEvs ++ [Event.runAction c.action valuesToCompare]
      let pushStep : List Event × Except DQError Unit :=
        match c.prometheus_gateway with
        | some gw =>
          if gw = "" then ([], Except.ok ())
          else
            ([Event.push gw c.metricJob c.prometheus_metric_name metricValue],
              env.pushResult)
        | none => ([], Except.ok ())
      match pushStep with
      | (pushEvs, Except.error e) => (evs1 ++ pushEvs, Except.error e)
      | (pushEvs, Except.ok _) =>
        let kwargs := dictUnion c.attributes [("metric", metricValue)]
        match env.comparatorModules
            (comparatorPath env.rootFolder c.comparator) with
        | none =>
          (evs1 ++ pushEvs, Except.error (DQError.importError
            (comparatorPath env.rootFolder c.comparator)))
        | some runCmp =>
          (evs1 ++ pushEvs ++ [Event.runComparator c.comparator kwargs],
            Except.ok (runCmp kwargs))

/-! ### Lookup characterizations of the dict operations -/

-- Lookup distributes over append: the left list is consulted first.
theorem dictLookup_append {V : Type} (xs ys : Dict V) (k : String) :
    dictLookup (xs ++ ys) k =
      match dictLookup xs k with
      | some v => some v
      | none => dictLookup ys k := by
  induction xs with
  | nil => simp [dictLookup]
  | cons p rest ih =>
    obtain ⟨k1, v⟩ := p
    by_cases h : k1 = k <;> simp [dictLookup, h, ih]

-- Lookup in the overridden copy of `a` (the left part of `dictUnion a b`).
theorem dictLookup_overrideMap {V : Type} (a b : Dict V) (k : String) :
    dictLookup (a.map (fun p => match dictLookup b p.1 with
      | some v => (p.1, v)
      | none => p)) k =
      match dictLookup a k with
      | some va =>
        some (match dictLookup b k with
          | some vb => vb
          | none => va)
      | none => none := by
  induction a with
  | nil => simp [dictLookup]
  | cons p rest ih =>
    obtain ⟨k1, v⟩ := p
    by_cases h : k1 = k
    · subst h
      cases hb : dictLookup b k1 <;> simp [dictLookup, hb]
    · cases hb : dictLookup b k1 <;> simp [dictLookup, hb, h, ih]

-- Lookup in the filtered copy of `b` (the right part of `dictUnion a b`).
theorem dictLookup_filterNew {V : Type} (a b : Dict V) (k : String) :
    dictLookup (b.filter (fun p => !dictHasKey a p.1)) k =
      if dictHasKey a k then none else dictLookup b k := by
  induction b with
  | nil => simp [dictLookup]
  | cons p rest ih =>
    obtain ⟨k1, v⟩ := p
    by_cases hk : k1 = k
    · subst hk
      cases ha : dictHasKey a k1 <;> simp [dictLookup, List.filter_cons, ha, ih]
    · cases ha : dictHasKey a k1 <;>
        simp [dictLookup, List.filter_cons, ha, hk, ih]

-- Full characterization of `a | b` lookups: `b` wins, `a` is the fallback.
theorem dictLookup_dictUnion {V : Type} (a b : Dict V) (k : String) :
    dictLookup (dictUnion a b) k =
      match dictLookup b k with
      | some vb => some vb
      | none => dictLookup a k := by
  unfold dictUnion
  rw [dictLookup_append, dictLookup_overrideMap, dictLookup_filterNew]
  cases ha : dictLookup a k <;> cases hb : dictLookup b k <;>
    simp [dictHasKey, ha, hb]

/-! ### Trace helpers for the source loop -/

-- Every event a single loop iteration emits is a database-query event.
theorem querySource_events_query (env : Env) (c : DataQualityChecker)
    (entry : String × Dict Value) :
    ∀ ev ∈ (querySource env c entry).1, isQueryB ev = true := by
  intro ev hev
  simp only [querySource] at hev
  split at hev
  · simp at hev
  · split at hev
    · simp at hev
    · split at hev
      · simp at hev
      · split at hev <;> simp_all [isQueryB]

-- Every event the whole source loop emits is a database-query event.
theorem querySources_events_query (env : Env) (c : DataQualityChecker) :
    ∀ (srcs : List (String × Dict Value)) (ev : Event),
      ev ∈ (querySources env c srcs).1 → isQueryB ev = true := by
  intro srcs
  induction srcs with
  | nil => intro ev hev; simp [querySources] at hev
  | cons entry rest ih =>
    intro ev hev
    have h1 := querySource_events_query env c entry
    simp only [querySources] at hev
    split at hev
    next evs e heq =>
      rw [heq] at h1
      exact h1 ev hev
    next evs rows heq =>
      rw [heq] at h1
      split at hev <;>
      · rcases List.mem_append.mp hev with h | h
        · exact h1 ev h
        · rename_i heq2
          have := ih ev
          rw [heq2] at this
          exact this h

-- When every source succeeds with its row-set, the loop returns exactly the
-- row-sets in source order, and its trace is the per-source traces in order.
theorem querySources_ok_of_forall2 (env : Env) (c : DataQualityChecker)
    (srcs : List (String × Dict Value)) (R : List Rows)
    (h : List.Forall₂
      (fun entry r => querySource env c entry = ((querySource env c entry).1,
        Except.ok r)) srcs R) :
    querySources env c srcs =
      (srcs.flatMap (fun x => (querySource env c x).1), Except.ok R) := by
  induction h with
  | nil => simp [querySources]
  | cons h1 h2 ih =>
    rename_i entry r srcsRest RRest
    simp only [querySources, List.flatMap_cons]
    rw [h1, ih]

-- A failing source aborts the loop: the error is returned as-is and the
-- trace stops at the failing source.
theorem querySources_error_append (env : Env) (c : DataQualityChecker)
    (pre : List (String × Dict Value)) (entry : String × Dict Value)
    (post : List (String × Dict Value)) (e : DQError)
    (hpre : ∀ x ∈ pre, ∃ r, (querySource env c x).2 = Except.ok r)
    (hfail : (querySource env c entry).2 = Except.error e) :
    querySources env c (pre ++ entry :: post) =
      ((pre ++ [entry]).flatMap (fun x => (querySource env c x).1),
        Except.error e) := by
  induction pre with
  | nil =>
    simp only [List.nil_append, querySources, List.flatMap_cons,
      List.flatMap_nil, List.append_nil]
    cases hq : querySource env c entry with
    | mk evs res =>
      rw [hq] at hfail
      simp only at hfail
      subst hfail
      simp
  | cons x rest ih =>
    have hx := hpre x (List.mem_cons_self x rest)
    obtain ⟨r, hr⟩ := hx
    have hrest : ∀ y ∈ rest, ∃ r2, (querySource env c y).2 = Except.ok r2 :=
      fun y hy => hpre y (List.mem_cons_of_mem x hy)
    have ih2 := ih hrest
    simp only [List.cons_append, querySources, List.flatMap_cons]
    cases hq : querySource env c x with
    | mk evs res =>
      rw [hq] at hr
      simp only at hr
      subst hr
      simp only [List.append_eq, ih2]

-- Filtering the loop trace with any predicate that rejects query events
-- yields the empty list.
theorem flatMap_querySource_filter (env : Env) (c : DataQualityChecker)
    (srcs : List (String × Dict Value)) (p : Event → Bool)
    (hp : ∀ s q, p (Event.query s q) = false) :
    (srcs.flatMap (fun x => (querySource env c x).1)).filter p = [] := by
  rw [List.filter_eq_nil_iff]
  intro ev hev
  rcases List.mem_flatMap.mp hev with ⟨x, hx, hevx⟩
  have h := querySource_events_query env c x ev hevx
  cases ev <;> simp_all [isQueryB, hp]

/-- Did any event of the trace push a metric to the gateway? -/
def hasPush (evs : List Event) : Bool := evs.any isPushB

-- The loop trace contains no push events.
theorem hasPush_flatMap_querySource (env : Env) (c : DataQualityChecker)
    (srcs : List (String × Dict Value)) :
    hasPush (srcs.flatMap (fun x => (querySource env c x).1)) = false := by
  unfold hasPush
  rw [List.any_eq_false]
  intro ev hev
  rcases List.mem_flatMap.mp hev with ⟨x, hx, hevx⟩
  have h := querySource_events_query env c x ev hevx
  cases ev <;> simp_all [isQueryB, isPushB]

-- The loop trace contains no push events (membership form).
theorem querySources_not_push (env : Env) (c : DataQualityChecker)
    (srcs : List (String × Dict Value)) :
    ∀ ev ∈ (querySources env c srcs).1, isPushB ev = false := by
  intro ev hev
  have h := querySources_events_query env c srcs ev hev
  cases ev <;> simp_all [isQueryB, isPushB]


-- Any push event in a `check` trace was pushed to a truthy gateway address
-- and carries the job name and lowercased gauge name of the checker.
theorem check_push_shape (env : Env) (c : DataQualityChecker) :
    ∀ ev ∈ (DataQualityChecker.check env c).1, isPushB ev = true →
      ∃ gw v, c.prometheus_gateway = some gw ∧ gw ≠ "" ∧
        ev = Event.push gw c.metricJob c.prometheus_metric_name v := by
  intro ev hev hpush
  have hqp := querySources_not_push env c c.sources
  cases hq : querySources env c c.sources with
  | mk qEvs qRes =>
    rw [hq] at hqp
    simp only at hqp
    cases qRes with
    | error e =>
      simp only [DataQualityChecker.check, hq] at hev
      exact absurd hpush (by simp [hqp ev hev])
    | ok v =>
      simp only [DataQualityChecker.check, hq] at hev
      cases hA : env.actionModules (actionPath env.rootFolder c.action) with
      | none =>
        rw [hA] at hev
        simp only at hev
        exact absurd hpush (by simp [hqp ev hev])
      | some runAct =>
        rw [hA] at hev
        simp only at hev
        cases hg : c.prometheus_gateway with
        | none =>
          rw [hg] at hev
          simp only at hev
          cases hC : env.comparatorModules
              (comparatorPath env.rootFolder c.comparator) with
          | none =>
            rw [hC] at hev
            simp only [List.append_nil, List.mem_append,
              List.mem_singleton] at hev
            rcases hev with hev | hev
            · exact absurd hpush (by simp [hqp ev hev])
            · subst hev; simp [isPushB] at hpush
          | some runCmp =>
            rw [hC] at hev
            simp only [List.append_nil, List.mem_append,
              List.mem_singleton] at hev
            rcases hev with (hev | hev) | hev
            · exact absurd hpush (by simp [hqp ev hev])
            · subst hev; simp [isPushB] at hpush
            · subst hev; simp [isPushB] at hpush
        | some gw =>
          rw [hg] at hev
          by_cases hgw : gw = ""
          · simp only [hgw, reduceIte] at hev
            cases hC : env.comparatorModules
                (comparatorPath env.rootFolder c.comparator) with
            | none =>
              rw [hC] at hev
              simp only [List.append_nil, List.mem_append,
                List.mem_singleton] at hev
              rcases hev with hev | hev
              · exact absurd hpush (by simp [hqp ev hev])
              · subst hev; simp [isPushB] at hpush
            | some runCmp =>
              rw [hC] at hev
              simp only [List.append_nil, List.mem_append,
                List.mem_singleton] at hev
              rcases hev with (hev | hev) | hev
              · exact absurd hpush (by simp [hqp ev hev])
              · subst hev; simp [isPushB] at hpush
              · subst hev; simp [isPushB] at hpush
          · simp only [if_neg hgw] at hev
            cases hpr : env.pushResult with
            | error e2 =>
              rw [hpr] at hev
              simp only [List.mem_append, List.mem_singleton] at hev
              rcases hev with (hev | hev) | hev
              · exact absurd hpush (by simp [hqp ev hev])
              · subst hev; simp [isPushB] at hpush
              · exact ⟨gw, runAct v, rfl, hgw, hev⟩
            | ok u =>
              rw [hpr] at hev
              simp only at hev
              cases hC : env.comparatorModules
                  (comparatorPath env.rootFolder c.comparator) with
              | none =>
                rw [hC] at hev
                simp only [List.mem_append, List.mem_singleton] at hev
                rcases hev with (hev | hev) | hev
                · exact absurd hpush (by simp [hqp ev hev])
                · subst hev; simp [isPushB] at hpush
                · exact ⟨gw, runAct v, rfl, hgw, hev⟩
              | some runCmp =>
                rw [hC] at hev
                simp only [List.mem_append, List.mem_singleton] at hev
                rcases hev with ((hev | hev) | hev) | hev
                · exact absurd hpush (by simp [hqp ev hev])
                · subst hev; simp [isPushB] at hpush
                · exact ⟨gw, runAct v, rfl, hgw, hev⟩
                · subst hev; simp [isPushB] at hpush

-- When every stage succeeds, `check` is fully determined: the queries, one
-- action invocation on the collected row-sets, an optional push, and one
-- comparator invocation on the global attributes extended with the metric.
theorem check_full_ok (env : Env) (c : DataQualityChecker)
    (qEvs : List Event) (R : List Rows) (f : List Rows → Value)
    (g : Dict Value → Value)
    (hq : querySources env c c.sources = (qEvs, Except.ok R))
    (hf : env.actionModules (actionPath env.rootFolder c.action) = some f)
    (hp : env.pushResult = Except.ok ())
    (hg : env.comparatorModules (comparatorPath env.rootFolder c.comparator) =
      some g) :
    DataQualityChecker.check env c =
      (qEvs ++ [Event.runAction c.action R] ++
        (match c.prometheus_gateway with
          | some gw =>
            if gw = "" then []
            else [Event.push gw c.metricJob c.prometheus_metric_name (f R)]
          | none => []) ++
        [Event.runComparator c.comparator
          (dictUnion c.attributes [("metric", f R)])],
        Except.ok (g (dictUnion c.attributes [("metric", f R)]))) := by
  simp only [DataQualityChecker.check, hq, hf, hg, hp]
  cases c.prometheus_gateway with
  | none => simp
  | some gw =>
    by_cases hgw : gw = "" <;> simp [hgw, hp, hg]

-- With the action resolvable, the action plugin runs exactly once, on the
-- collected row-sets, whatever the push and comparator stages then do.
theorem check_filter_runAction (env : Env) (c : DataQualityChecker)
    (qEvs : List Event) (R : List Rows) (f : List Rows → Value)
    (hq : querySources env c c.sources = (qEvs, Except.ok R))
    (hf : env.actionModules (actionPath env.rootFolder c.action) = some f)
    (hfil : qEvs.filter isRunActionB = []) :
    (DataQualityChecker.check env c).1.filter isRunActionB =
      [Event.runAction c.action R] := by
  simp only [DataQualityChecker.check, hq, hf]
  cases c.prometheus_gateway with
  | none =>
    cases hC : env.comparatorModules
        (comparatorPath env.rootFolder c.comparator) <;>
      simp [List.filter_append, hfil, isRunActionB]
  | some gw =>
    by_cases hgw : gw = ""
    · cases hC : env.comparatorModules
          (comparatorPath env.rootFolder c.comparator) <;>
        simp [hgw, List.filter_append, hfil, isRunActionB]
    · cases hpr : env.pushResult with
      | error e2 =>
        simp [hgw, hpr, List.filter_append, hfil, isRunActionB]
      | ok u =>
        cases hC : env.comparatorModules
            (comparatorPath env.rootFolder c.comparator) <;>
          simp [hgw, hpr, hC, List.filter_append, hfil, isRunActionB]

/-! ### Concrete fixtures used by witnesses and counterexamples -/

/-- Fixture: source parameters overriding attribute `a` and naming
connection `c1`. -/
def tSp : Dict Value := [("a", Value.str "s"), ("connection", Value.str "c1")]

/-- Fixture: a checker over one source, global attribute `a`, no gateway. -/
def tChecker : DataQualityChecker :=
  ⟨"m", "dq", "m", [("s1", tSp)], [("a", Value.str "g")],
    [(Value.str "c1", [])], none, "act", "cmp", "doc"⟩

/-- Fixture: an environment with one registered action (returning 5) and
one registered comparator (returning 1); every query returns one row. -/
def tEnv : Env :=
  ⟨[TemplateItem.field "a"], "src",
    fun p => if p = actionPath "src" "act" then some (fun _ => Value.int 5)
      else none,
    fun p => if p = comparatorPath "src" "cmp" then some (fun _ => Value.int 1)
      else none,
    fun _ _ => Except.ok [[Value.int 7]],
    Except.ok ()⟩

/-- Fixture: a query template with a literal head and one placeholder. -/
def tTemplate : Template :=
  [TemplateItem.lit "select count(1) from ", TemplateItem.field "a"]

/-- Fixture: a one-entry metric-definition table. -/
def tTable : Dict MetricDescription :=
  [("row_count", ⟨"sum", "greater", "doc"⟩)]

/-- Fixture: a config whose metric name is absent from `tTable`. -/
def tCfgMissing : CheckerConfig :=
  ⟨"absent_metric", "dq_job", [], [], [], none⟩

/-! ### The claims -/

/-- C2: for every global attribute mapping and source-specific attribute
mapping, the attributes used to render the query of the source contain every key
of both mappings, and for every key present in both the value is the
source-specific one. -/
theorem merged_attrs_keys_and_override (c : DataQualityChecker)
    (sp : Dict Value) :
    (∀ k, (dictHasKey c.attributes k = true ∨ dictHasKey sp k = true) →
      dictHasKey (sourceAttrs c sp) k = true) ∧
    (∀ k v, dictHasKey c.attributes k = true → dictLookup sp k = some v →
      dictLookup (sourceAttrs c sp) k = some v) := by
  constructor
  · intro k hk
    unfold sourceAttrs
    rw [dictHasKey, dictLookup_dictUnion]
    cases hb : dictLookup sp k with
    | some v => simp
    | none =>
      cases ha : dictLookup c.attributes k with
      | some v => simp
      | none => rcases hk with h2 | h2 <;> simp_all [dictHasKey]
  · intro k v _ hv
    unfold sourceAttrs
    rw [dictLookup_dictUnion, hv]

/-- C2 witness: on the fixture, the merged attributes keep the
source-only key `connection` and take the source value for the shared
key `a`. -/
theorem merged_attrs_keys_and_override_witness :
    dictHasKey (sourceAttrs tChecker tSp) "connection" = true ∧
    dictLookup (sourceAttrs tChecker tSp) "a" = some (Value.str "s") :=
  ⟨(merged_attrs_keys_and_override tChecker tSp).1 "connection"
      (Or.inr (by decide)),
    (merged_attrs_keys_and_override tChecker tSp).2 "a" (Value.str "s")
      (by decide) (by decide)⟩

/-- C4: if the attribute mapping provides every placeholder referenced in
the template, rendering succeeds and substitutes the values verbatim; if
some referenced placeholder is absent, rendering raises a `KeyError` (for
the first missing placeholder) instead of a blank substitution. -/
theorem render_success_or_keyError (t : Template) (attrs : Dict Value) :
    (firstMissing attrs t = none ↔
      ∀ n ∈ placeholders t, dictHasKey attrs n = true) ∧
    (firstMissing attrs t = none →
      render t attrs = Except.ok (renderForced t attrs)) ∧
    (∀ m, firstMissing attrs t = some m →
      dictHasKey attrs m = false ∧
      render t attrs = Except.error (DQError.keyError m)) := by
  refine ⟨?_, ?_, ?_⟩
  · induction t with
    | nil => simp [firstMissing, placeholders]
    | cons item rest ih =>
      cases item with
      | lit s => simpa [firstMissing, placeholders] using ih
      | field n =>
        cases hn : dictHasKey attrs n <;>
          simp [firstMissing, placeholders, hn, ih]
  · induction t with
    | nil => intro h; simp [render, renderForced]
    | cons item rest ih =>
      intro h
      cases item with
      | lit s =>
        simp only [firstMissing] at h
        simp [render, renderForced, ih h]
      | field n =>
        simp only [firstMissing] at h
        cases hn : dictHasKey attrs n with
        | false => rw [hn] at h; simp at h
        | true =>
          rw [hn] at h
          simp only [if_true] at h
          obtain ⟨v, hv⟩ := Option.isSome_iff_exists.mp hn
          simp [render, renderForced, hv, ih h]
  · intro m
    induction t with
    | nil => intro h; simp [firstMissing] at h
    | cons item rest ih =>
      intro h
      cases item with
      | lit s =>
        simp only [firstMissing] at h
        obtain ⟨h1, h2⟩ := ih h
        exact ⟨h1, by simp [render, h2]⟩
      | field n =>
        simp only [firstMissing] at h
        cases hn : dictHasKey attrs n with
        | true =>
          rw [hn] at h
          simp only [if_true] at h
          obtain ⟨h1, h2⟩ := ih h
          obtain ⟨v, hv⟩ := Option.isSome_iff_exists.mp hn
          exact ⟨h1, by simp [render, hv, h2]⟩
        | false =>
          rw [hn] at h
          simp only [if_false, Bool.false_eq_true, reduceIte,
            Option.some.injEq] at h
          subst h
          have hno : dictLookup attrs n = none := by
            cases hl : dictLookup attrs n with
            | none => rfl
            | some v => rw [dictHasKey, hl] at hn; simp at hn
          exact ⟨hn, by simp [render, hno]⟩

/-- C4 witness: on the fixture template, a mapping providing `a` renders
to the substituted text, and the empty mapping raises the `KeyError` for
`a`. -/
theorem render_success_or_keyError_witness :
    render tTemplate [("a", Value.str "tbl")] =
      Except.ok (renderForced tTemplate [("a", Value.str "tbl")]) ∧
    render tTemplate [] = Except.error (DQError.keyError "a") :=
  ⟨(render_success_or_keyError tTemplate [("a", Value.str "tbl")]).2.1
      (by decide),
    ((render_success_or_keyError tTemplate []).2.2 "a" (by decide)).2⟩

/-- C6: construction resolves the metric name against the static
metric-definition table, failing with a `KeyError` exactly when the name is
absent; on success the constructed action, comparator, and documentation
fields are the table entries for that name. -/
theorem init_resolves_metric (table : Dict MetricDescription)
    (cfg : CheckerConfig) :
    (dictLookup table cfg.metric_name = none →
      DataQualityChecker.init table cfg =
        Except.error (DQError.keyError cfg.metric_name)) ∧
    (∀ md, dictLookup table cfg.metric_name = some md →
      ∃ c, DataQualityChecker.init table cfg = Except.ok c ∧
        c.action = md.action ∧ c.comparator = md.comparator ∧
        c.prometheus_documentation = md.prometheus_documentation) := by
  constructor
  · intro h
    unfold DataQualityChecker.init
    rw [h]
  · intro md h
    refine ⟨⟨cfg.metric_name, strLower cfg.metricJobArg,
      strLower cfg.metric_name, cfg.sources, cfg.attributes, cfg.connections,
      cfg.prometheus_gateway, md.action, md.comparator,
      md.prometheus_documentation⟩, ?_, rfl, rfl, rfl⟩
    unfold DataQualityChecker.init
    rw [h]

/-- C6 witness: a metric name absent from the fixture table makes
construction fail with the `KeyError` carrying that name. -/
theorem init_resolves_metric_witness :
    DataQualityChecker.init tTable tCfgMissing =
      Except.error (DQError.keyError "absent_metric") :=
  (init_resolves_metric tTable tCfgMissing).1 (by decide)

/-- C1 counterexample: at a concrete invocation whose single source
overrides attribute `a`, the comparator is invoked with the global value of
`a`, so its keyword arguments differ from the merged attribute mapping
(global overridden by source-specific) extended with the metric. -/
theorem comparator_kwargs_not_merged_cex :
    (DataQualityChecker.check tEnv tChecker).1.filter isRunComparatorB =
      [Event.runComparator "cmp"
        [("a", Value.str "g"), ("metric", Value.int 5)]] ∧
    ¬ [("a", Value.str "g"), ("metric", Value.int 5)] =
      dictUnion (sourceAttrs tChecker tSp) [("metric", Value.int 5)] := by
  constructor
  · rfl
  · decide

/-- C1 (amended): for every check invocation that reaches the comparator,
the comparator function is invoked with named arguments equal to the global
attribute mapping (without source-specific overrides) extended with the
computed metric value under the key `metric`. -/
theorem comparator_kwargs_global_attrs (env : Env) (c : DataQualityChecker)
    (qEvs : List Event) (R : List Rows) (f : List Rows → Value)
    (g : Dict Value → Value)
    (hq : querySources env c c.sources = (qEvs, Except.ok R))
    (hf : env.actionModules (actionPath env.rootFolder c.action) = some f)
    (hp : env.pushResult = Except.ok ())
    (hg : env.comparatorModules (comparatorPath env.rootFolder c.comparator) =
      some g) :
    (DataQualityChecker.check env c).1.filter isRunComparatorB =
      [Event.runComparator c.comparator
        (dictUnion c.attributes [("metric", f R)])] ∧
    (DataQualityChecker.check env c).2 =
      Except.ok (g (dictUnion c.attributes [("metric", f R)])) := by
  have h := check_full_ok env c qEvs R f g hq hf hp hg
  rw [h]
  have hfil : qEvs.filter isRunComparatorB = [] := by
    rw [List.filter_eq_nil_iff]
    intro ev hev
    have h2 := querySources_events_query env c c.sources ev
      (by rw [hq]; exact hev)
    cases ev <;> simp_all [isQueryB, isRunComparatorB]
  constructor
  · cases c.prometheus_gateway with
    | none => simp [List.filter_append, hfil, isRunComparatorB]
    | some gw =>
      by_cases hgw : gw = "" <;>
        simp [hgw, List.filter_append, hfil, isRunComparatorB]
  · rfl

/-- C1 witness: the amended claim at the fixture invocation. -/
theorem comparator_kwargs_global_attrs_witness :
    (DataQualityChecker.check tEnv tChecker).1.filter isRunComparatorB =
      [Event.runComparator "cmp"
        [("a", Value.str "g"), ("metric", Value.int 5)]] ∧
    (DataQualityChecker.check tEnv tChecker).2 = Except.ok (Value.int 1) :=
  comparator_kwargs_global_attrs tEnv tChecker [Event.query "s1" "s"]
    [[[Value.int 7]]] (fun _ => Value.int 5) (fun _ => Value.int 1)
    rfl rfl rfl rfl

/-- C3: when the sources, in configured (insertion) order, return the
row-sets R1..Rn, the action function is invoked exactly once, with the list
[R1, ..., Rn] in that order. -/
theorem action_gets_ordered_rowsets (env : Env) (c : DataQualityChecker)
    (R : List Rows) (f : List Rows → Value)
    (hR : List.Forall₂
      (fun entry r => (querySource env c entry).2 = Except.ok r) c.sources R)
    (hf : env.actionModules (actionPath env.rootFolder c.action) = some f) :
    (DataQualityChecker.check env c).1.filter isRunActionB =
      [Event.runAction c.action R] := by
  have hR2 : List.Forall₂ (fun entry r => querySource env c entry =
      ((querySource env c entry).1, Except.ok r)) c.sources R := by
    refine List.Forall₂.imp ?_ hR
    intro entry r h
    calc querySource env c entry
        = ((querySource env c entry).1, (querySource env c entry).2) := by
          simp
      _ = ((querySource env c entry).1, Except.ok r) := by rw [h]
  have hq := querySources_ok_of_forall2 env c c.sources R hR2
  exact check_filter_runAction env c _ R f hq hf
    (flatMap_querySource_filter env c c.sources isRunActionB (fun s q => rfl))

/-- C3 witness: on the fixture invocation the action runs once, on the
singleton list holding the row-set of the single source. -/
theorem action_gets_ordered_rowsets_witness :
    (DataQualityChecker.check tEnv tChecker).1.filter isRunActionB =
      [Event.runAction "act" [[[Value.int 7]]]] :=
  action_gets_ordered_rowsets tEnv tChecker [[[Value.int 7]]]
    (fun _ => Value.int 5) (List.Forall₂.cons rfl List.Forall₂.nil) rfl

/-- Fixture: like `tEnv` but the database refuses every query. -/
def tEnvFail : Env :=
  ⟨[TemplateItem.field "a"], "src",
    fun p => if p = actionPath "src" "act" then some (fun _ => Value.int 5)
      else none,
    fun p => if p = comparatorPath "src" "cmp" then some (fun _ => Value.int 1)
      else none,
    fun _ _ => Except.error (DQError.dbError "connection refused"),
    Except.ok ()⟩

/-- Fixture: a checker with two sources (the second is never reached when
the first fails). -/
def tChecker2 : DataQualityChecker :=
  ⟨"m", "dq", "m", [("s1", tSp), ("s2", tSp)], [("a", Value.str "g")],
    [(Value.str "c1", [])], none, "act", "cmp", "doc"⟩

/-- C5: when querying some source fails, `check` propagates that error and
aborts: the trace stops at the failing source (no later source is queried)
and contains only query events (the action, the push and the comparator
never run), and the result is exactly that error (no partial result). -/
theorem check_aborts_on_query_failure (env : Env) (c : DataQualityChecker)
    (pre post : List (String × Dict Value)) (entry : String × Dict Value)
    (e : DQError)
    (hsrc : c.sources = pre ++ entry :: post)
    (hpre : ∀ x ∈ pre, ∃ r, (querySource env c x).2 = Except.ok r)
    (hfail : (querySource env c entry).2 = Except.error e) :
    DataQualityChecker.check env c =
      ((pre ++ [entry]).flatMap (fun x => (querySource env c x).1),
        Except.error e) ∧
    ((pre ++ [entry]).flatMap
        (fun x => (querySource env c x).1)).all isQueryB = true := by
  have hq0 := querySources_error_append env c pre entry post e hpre hfail
  have hq : querySources env c c.sources =
      ((pre ++ [entry]).flatMap (fun x => (querySource env c x).1),
        Except.error e) := by
    rw [hsrc]; exact hq0
  constructor
  · simp only [DataQualityChecker.check, hq]
  · rw [List.all_eq_true]
    intro ev hev
    refine querySources_events_query env c (pre ++ entry :: post) ev ?_
    rw [hq0]
    exact hev

/-- C5 witness: with a database that refuses connections, the two-source
fixture aborts at the first source with only its query event in the trace. -/
theorem check_aborts_on_query_failure_witness :
    DataQualityChecker.check tEnvFail tChecker2 =
      (([] ++ [(("s1" : String), tSp)]).flatMap
        (fun x => (querySource tEnvFail tChecker2 x).1),
        Except.error (DQError.dbError "connection refused")) ∧
    (([] ++ [(("s1" : String), tSp)]).flatMap
        (fun x => (querySource tEnvFail tChecker2 x).1)).all isQueryB =
      true :=
  check_aborts_on_query_failure tEnvFail tChecker2 [] [("s2", tSp)]
    ("s1", tSp) (DQError.dbError "connection refused") rfl
    (fun x hx => absurd hx (List.not_mem_nil x)) rfl

/-- Fixture: an environment in which no plugin module is importable. -/
def tEnvNoMods : Env :=
  ⟨[TemplateItem.field "a"], "src", fun _ => none, fun _ => none,
    fun _ _ => Except.ok [[Value.int 7]], Except.ok ()⟩

/-- C7: the action is resolved by name under the fixed `actions` namespace
and the comparator under the fixed `comparators` namespace, and a name that
does not resolve to a registered module makes the run fail with an import
(resolution) error naming that module path. -/
theorem plugin_resolution_by_name (env : Env) (c : DataQualityChecker)
    (qEvs : List Event) (R : List Rows)
    (hq : querySources env c c.sources = (qEvs, Except.ok R)) :
    actionPath env.rootFolder c.action =
      env.rootFolder ++ ".actions." ++ c.action ++ ".action" ∧
    comparatorPath env.rootFolder c.comparator =
      env.rootFolder ++ ".comparators." ++ c.comparator ++ ".comparator" ∧
    (env.actionModules (actionPath env.rootFolder c.action) = none →
      (DataQualityChecker.check env c).2 = Except.error
        (DQError.importError (actionPath env.rootFolder c.action))) ∧
    (∀ f, env.actionModules (actionPath env.rootFolder c.action) = some f →
      env.pushResult = Except.ok () →
      env.comparatorModules (comparatorPath env.rootFolder c.comparator) =
        none →
      (DataQualityChecker.check env c).2 = Except.error
        (DQError.importError (comparatorPath env.rootFolder c.comparator))) :=
  by
  refine ⟨rfl, rfl, ?_, ?_⟩
  · intro hA
    simp [DataQualityChecker.check, hq, hA]
  · intro f hA hp hC
    simp only [DataQualityChecker.check, hq, hA, hC]
    cases c.prometheus_gateway with
    | none => simp [hC]
    | some gw => by_cases hgw : gw = "" <;> simp [hgw, hp, hC]

/-- C7 witness: with empty registries the fixture run fails with the
resolution error naming the module path under the `actions` namespace. -/
theorem plugin_resolution_by_name_witness :
    (DataQualityChecker.check tEnvNoMods tChecker).2 =
      Except.error (DQError.importError "src.actions.act.action") :=
  (plugin_resolution_by_name tEnvNoMods tChecker [Event.query "s1" "s"]
    [[[Value.int 7]]] rfl).2.2.1 rfl

/-- C8: with no gateway configured, `check` performs no metric push; any
push in the trace implies a truthy gateway address was configured. -/
theorem no_push_without_gateway (env : Env) (c : DataQualityChecker) :
    (c.prometheus_gateway = none →
      hasPush (DataQualityChecker.check env c).1 = false) ∧
    (hasPush (DataQualityChecker.check env c).1 = true →
      ∃ gw, c.prometheus_gateway = some gw ∧ gw ≠ "") := by
  constructor
  · intro hnone
    cases h : hasPush (DataQualityChecker.check env c).1 with
    | false => rfl
    | true =>
      obtain ⟨ev, hev, hp⟩ := List.any_eq_true.mp h
      obtain ⟨gw, v, hgw, _, _⟩ := check_push_shape env c ev hev hp
      rw [hnone] at hgw
      exact Option.noConfusion hgw
  · intro htrue
    obtain ⟨ev, hev, hp⟩ := List.any_eq_true.mp htrue
    obtain ⟨gw, v, hgw, hne, _⟩ := check_push_shape env c ev hev hp
    exact ⟨gw, hgw, hne⟩

/-- C8 witness: the gateway-less fixture run pushes nothing. -/
theorem no_push_without_gateway_witness :
    hasPush (DataQualityChecker.check tEnv tChecker).1 = false :=
  (no_push_without_gateway tEnv tChecker).1 rfl

/-- Fixture: a checker with no sources and a configured gateway. -/
def tChecker0 : DataQualityChecker :=
  ⟨"m", "dq", "m", [], [("a", Value.str "g")], [], some "gw.host:9091",
    "act", "cmp", "doc"⟩

/-- C9: with an empty source mapping, `check` does not fail early: the
action runs on the empty list of row-sets, the metric is pushed when a
gateway is configured, and the comparator runs on the result. -/
theorem empty_sources_full_run (env : Env) (c : DataQualityChecker)
    (f : List Rows → Value) (g : Dict Value → Value)
    (hs : c.sources = [])
    (hf : env.actionModules (actionPath env.rootFolder c.action) = some f)
    (hp : env.pushResult = Except.ok ())
    (hg : env.comparatorModules (comparatorPath env.rootFolder c.comparator) =
      some g) :
    DataQualityChecker.check env c =
      ([Event.runAction c.action []] ++
        (match c.prometheus_gateway with
          | some gw =>
            if gw = "" then []
            else [Event.push gw c.metricJob c.prometheus_metric_name (f [])]
          | none => []) ++
        [Event.runComparator c.comparator
          (dictUnion c.attributes [("metric", f [])])],
        Except.ok (g (dictUnion c.attributes [("metric", f [])]))) := by
  have hq : querySources env c c.sources = ([], Except.ok []) := by
    rw [hs]; rfl
  have h := check_full_ok env c [] [] f g hq hf hp hg
  simpa using h

/-- C9 witness: the no-source fixture with a gateway runs the action on
`[]`, pushes the metric, and runs the comparator. -/
theorem empty_sources_full_run_witness :
    DataQualityChecker.check tEnv tChecker0 =
      ([Event.runAction "act" [],
        Event.push "gw.host:9091" "dq" "m" (Value.int 5),
        Event.runComparator "cmp"
          [("a", Value.str "g"), ("metric", Value.int 5)]],
        Except.ok (Value.int 1)) :=
  empty_sources_full_run tEnv tChecker0 (fun _ => Value.int 5)
    (fun _ => Value.int 1) rfl rfl rfl rfl

/-- Fixture: a metric-definition table keyed by a mixed-case metric name. -/
def tTableCased : Dict MetricDescription :=
  [("Row_Count", ⟨"sum", "greater", "doc"⟩)]

/-- Fixture: a config with mixed-case metric name and job name. -/
def tCfgCased : CheckerConfig := ⟨"Row_Count", "DQ_Job", [], [], [], none⟩

/-- Fixture: the checker `DataQualityChecker.init tTableCased tCfgCased`
constructs. -/
def tCheckerCased : DataQualityChecker :=
  ⟨"Row_Count", strLower "DQ_Job", strLower "Row_Count", [], [], [], none,
    "sum", "greater", "doc"⟩

/-- C10: the published gauge name is the lowercase form of the metric name
and the push job name is the lowercase form of the configured prefix, both
fixed at construction time: every push event of every later `check` run
carries exactly these lowercased names. -/
theorem lowercased_gauge_and_job (table : Dict MetricDescription)
    (cfg : CheckerConfig) (c : DataQualityChecker)
    (h : DataQualityChecker.init table cfg = Except.ok c) :
    c.prometheus_metric_name = strLower cfg.metric_name ∧
    c.metricJob = strLower cfg.metricJobArg ∧
    ∀ (env : Env) (ev : Event), ev ∈ (DataQualityChecker.check env c).1 →
      isPushB ev = true →
      pushJob ev = strLower cfg.metricJobArg ∧
      pushGauge ev = strLower cfg.metric_name := by
  have hc : c.metricJob = strLower cfg.metricJobArg ∧
      c.prometheus_metric_name = strLower cfg.metric_name := by
    unfold DataQualityChecker.init at h
    cases hl : dictLookup table cfg.metric_name with
    | none => rw [hl] at h; exact absurd h (by simp)
    | some md =>
      rw [hl] at h
      simp only [Except.ok.injEq] at h
      subst h
      exact ⟨rfl, rfl⟩
  refine ⟨hc.2, hc.1, ?_⟩
  intro env ev hev hp
  obtain ⟨gw, v, _, _, hev2⟩ := check_push_shape env c ev hev hp
  subst hev2
  simp [pushJob, pushGauge, hc.1, hc.2]

/-- C10 witness: constructing with mixed-case names stores the lowercase
gauge and job names. -/
theorem lowercased_gauge_and_job_witness :
    tCheckerCased.prometheus_metric_name = strLower "Row_Count" ∧
    tCheckerCased.metricJob = strLower "DQ_Job" :=
  ⟨(lowercased_gauge_and_job tTableCased tCfgCased tCheckerCased rfl).1,
    (lowercased_gauge_and_job tTableCased tCfgCased tCheckerCased rfl).2.1⟩
